import Mathlib

/-!
Verification of the session/RSVP lifecycle and scheduling engine of the
weekday-masters club-management backend.

The Go services are shallowly embedded as pure Lean functions over an explicit
database state:

* Instants are modelled as seconds on the club's (Australia/Sydney) civil
  timeline; a civil calendar date is its day number on that timeline.  All of
  the backend's time arithmetic (`AddDate` on dates, `time.Date` construction
  in the Sydney location, `Add` of hour offsets, `Format("2006-01-02")`) is
  civil-calendar arithmetic in that single fixed zone, so on this timeline it
  becomes plain integer arithmetic.  Sydney's DST transitions happen at
  02:00/03:00, so the wall-clock times the code constructs (23:59:59 deadlines,
  HH:MM session starts) always exist and are unambiguous, making the civil
  embedding exact for them.
* gorm queries become `List` filters over the database state; `Create` appends,
  `Save` replaces the row with the matching primary key.
* Fallible service calls return `Except`; an error result leaves the database
  unchanged (the Go services return before any write on those paths).
* `uuid.New()` is replaced by explicitly threaded fresh numeric ids; none of
  the verified properties depend on id values.
* gorm-managed `created_at`/`updated_at` bookkeeping on sessions, and fields
  that only feed display strings, are carried where a claim needs them
  (`updatedAt` on RSVPs) and omitted otherwise.
-/

namespace WeekdayMasters

/-! ### Civil time (internal/utils/time.go) -/

/-- Seconds on the Sydney civil timeline. -/
abbrev Instant := Int

def secPerDay : Int := 86400

/-- Civil day number of an instant (what `Format("2006-01-02")` identifies). -/
def dayOf (t : Instant) : Int := t / secPerDay

/-- Second-of-day of an instant. -/
def secondOfDay (t : Instant) : Int := t % secPerDay

/-- Day number of a Gregorian calendar date (epoch 0000-03-01), the standard
civil-from-days correspondence used to move between `(y, m, d)` dates and the
day numbers stored on sessions. -/
def daysFromCivil (y m d : Int) : Int :=
  let y2 := if m ≤ 2 then y - 1 else y
  let era := y2 / 400
  let yoe := y2 - era * 400
  let mp := (m + 9) % 12
  let doy := (153 * mp + 2) / 5 + d - 1
  let doe := yoe * 365 + yoe / 4 - yoe / 100 + doy
  era * 146097 + doe

/-- Inverse of `daysFromCivil`: the Gregorian `(y, m, d)` of a day number. -/
def civilFromDays (z : Int) : Int × Int × Int :=
  let era := z / 146097
  let doe := z - era * 146097
  let yoe := (doe - doe / 1460 + doe / 36524 - doe / 146096) / 365
  let y := yoe + era * 400
  let doy := doe - (365 * yoe + yoe / 4 - yoe / 100)
  let mp := (5 * doy + 2) / 153
  let d := doy - (153 * mp + 2) / 5 + 1
  let m := mp + (if mp < 10 then 3 else -9)
  (y + (if m ≤ 2 then 1 else 0), m, d)

/-- Weekday of a day number, `0` = Sunday (day 0 = 0000-03-01 is a Wednesday). -/
def weekdayOf (z : Int) : Int := (z + 3) % 7

def weekdayName (w : Int) : String :=
  if w = 0 then "Sunday" else if w = 1 then "Monday" else if w = 2 then "Tuesday"
  else if w = 3 then "Wednesday" else if w = 4 then "Thursday"
  else if w = 5 then "Friday" else "Saturday"

def monthName (m : Int) : String :=
  if m = 1 then "Jan" else if m = 2 then "Feb" else if m = 3 then "Mar"
  else if m = 4 then "Apr" else if m = 5 then "May" else if m = 6 then "Jun"
  else if m = 7 then "Jul" else if m = 8 then "Aug" else if m = 9 then "Sep"
  else if m = 10 then "Oct" else if m = 11 then "Nov" else "Dec"

def pad2 (n : Int) : String :=
  if n < 10 then "0" ++ toString n else toString n

/-- Go's `Format("Monday - 02 Jan 2006")` on a date, used for generated child
session titles. -/
def formatChildTitle (z : Int) : String :=
  let c := civilFromDays z
  weekdayName (weekdayOf z) ++ " - " ++ pad2 c.2.2 ++ " " ++ monthName c.2.1
    ++ " " ++ toString c.1

/-- `utils.CalculateRSVPDeadline`: convert the session date to Sydney time,
`AddDate(0, 0, -3)` (three civil days earlier), then `time.Date(..., 23, 59,
59, 0, SydneyLocation)` — i.e. the instant of day `sessionDate - 3` at second
`23*3600 + 59*60 + 59` on the Sydney civil timeline. -/
def CalculateRSVPDeadline (sessionDate : Int) : Instant :=
  (sessionDate - 3) * secPerDay + (23 * 3600 + 59 * 60 + 59)

/-! ### Data model (internal/models) -/

inductive SessionStatus
  | opened
  | closedStatus
  | cancelled
deriving DecidableEq, Repr

inductive RSVPStatus
  | statusIn
  | statusOut
  | statusMaybe
deriving DecidableEq, Repr

/-- Go stores `StartTime`/`EndTime` as "HH:MM" strings; the scheduler parses
them with `time.Parse("15:04", ...)` and reads `.Hour()`/`.Minute()`.  We keep
the parsed form. -/
structure TimeOfDay where
  hour : Int
  minute : Int
deriving DecidableEq, Repr

structure Session where
  id : Nat
  title : String
  description : String
  sessionDate : Int
  startTime : TimeOfDay
  endTime : TimeOfDay
  courts : Int
  maxPlayers : Int
  rsvpDeadline : Instant
  isRecurring : Bool
  recurringDayOfWeek : Option Int
  recurringParentID : Option Nat
  status : SessionStatus
  createdBy : Nat
deriving DecidableEq, Repr

structure RSVP where
  id : Nat
  sessionID : Nat
  userID : Nat
  status : RSVPStatus
  rsvpTimestamp : Instant
  isLateRSVP : Bool
  addedByAdmin : Bool
  updatedAt : Instant
deriving DecidableEq, Repr

/-- The relevant slice of database state. -/
structure DB where
  sessions : List Session
  rsvps : List RSVP
deriving DecidableEq, Repr

/-- `models.MaxPlayersForCourts`. -/
def MaxPlayersForCourts (courts : Int) : Int :=
  if courts = 1 then 6
  else if courts = 2 then 10
  else if courts = 3 then 16
  else 6

/-! ### RSVP service (internal/services/rsvp_service.go) -/

inductive RSVPError
  | sessionNotFound
  | sessionNotOpen
  | deadlinePassed
  | lockedIn
  | rsvpNotFound
deriving DecidableEq, Repr

def findSession (db : DB) (sid : Nat) : Option Session :=
  db.sessions.find? (fun s => s.id == sid)

def findRSVP (db : DB) (sid uid : Nat) : Option RSVP :=
  db.rsvps.find? (fun r => r.sessionID == sid && r.userID == uid)

/-- `RSVPService.CreateOrUpdateRSVP`.  Mirrors the Go control flow: session
lookup, open check, the non-admin deadline check (which precedes the existing
record lookup), then either creation (fixing `rsvpTimestamp`/`isLateRSVP` at
`now`) or in-place update of `status`/`updatedAt` (plus `addedByAdmin` when the
caller is an admin), with the IN-downgrade check guarding the update branch. -/
def createOrUpdateRSVP (db : DB) (now : Instant) (newID : Nat)
    (sid uid : Nat) (newStatus : RSVPStatus) (byAdmin : Bool) :
    Except RSVPError (DB × RSVP) :=
  match findSession db sid with
  | none => .error .sessionNotFound
  | some session =>
    if session.status ≠ SessionStatus.opened then .error .sessionNotOpen
    else
      let isLate : Bool := decide (session.rsvpDeadline < now)
      if !byAdmin && isLate then .error .deadlinePassed
      else
        match findRSVP db sid uid with
        | none =>
          let r : RSVP :=
            { id := newID, sessionID := sid, userID := uid, status := newStatus
              rsvpTimestamp := now, isLateRSVP := isLate
              addedByAdmin := byAdmin, updatedAt := now }
          .ok ({ db with rsvps := db.rsvps ++ [r] }, r)
        | some r =>
          if !byAdmin && isLate && r.status == RSVPStatus.statusIn
              && !(newStatus == RSVPStatus.statusIn) then
            .error .lockedIn
          else
            let r2 : RSVP :=
              { r with status := newStatus, updatedAt := now
                       addedByAdmin := if byAdmin then true else r.addedByAdmin }
            .ok ({ db with
                    rsvps := db.rsvps.map (fun x => if x.id == r.id then r2 else x) },
                 r2)

/-- Row count for one `(session, status)` pair, as issued by the summary and
waitlist queries. -/
def countRSVPs (db : DB) (sid : Nat) (st : RSVPStatus) : Int :=
  ((db.rsvps.filter (fun r => r.sessionID == sid && r.status == st)).length : Int)

structure RSVPSummary where
  totalIn : Int
  totalOut : Int
  totalMaybe : Int
  maxPlayers : Int
  spotsLeft : Int
deriving DecidableEq, Repr

/-- `RSVPService.GetRSVPSummary`: three fresh count queries over the RSVP rows
plus the clamped `spotsLeft` computation; a pure read. -/
def getRSVPSummary (db : DB) (sid : Nat) : Option RSVPSummary :=
  match findSession db sid with
  | none => none
  | some session =>
    let inCount := countRSVPs db sid RSVPStatus.statusIn
    let outCount := countRSVPs db sid RSVPStatus.statusOut
    let maybeCount := countRSVPs db sid RSVPStatus.statusMaybe
    let spotsLeft0 := session.maxPlayers - inCount
    let spotsLeft := if spotsLeft0 < 0 then 0 else spotsLeft0
    some { totalIn := inCount, totalOut := outCount, totalMaybe := maybeCount
           maxPlayers := session.maxPlayers, spotsLeft := spotsLeft }

/-! ### Session service (internal/services/session_service.go) -/

structure CreateSessionInput where
  title : String
  description : String
  sessionDate : Int
  startTime : TimeOfDay
  endTime : TimeOfDay
  courts : Int
  isRecurring : Bool
  recurringDayOfWeek : Option Int
  occurrences : Option Int
  createdBy : Nat
deriving DecidableEq, Repr

/-- The child session built inside `generateRecurringSessions` for one
candidate date: inherits the parent's time window, court count, capacity and
creator, gets its own computed deadline and generated title, is not itself
recurring and back-references the parent. -/
def childSession (parent : Session) (newID : Nat) (nextDate : Int) : Session :=
  { id := newID
    title := formatChildTitle nextDate
    description := parent.description
    sessionDate := nextDate
    startTime := parent.startTime
    endTime := parent.endTime
    courts := parent.courts
    maxPlayers := parent.maxPlayers
    rsvpDeadline := CalculateRSVPDeadline nextDate
    isRecurring := false
    recurringDayOfWeek := none
    recurringParentID := some parent.id
    status := SessionStatus.opened
    createdBy := parent.createdBy }

/-- The duplicate check inside the generation loop: does a session with this
exact date and this `recurring_parent_id` already exist? -/
def childExists (db : DB) (parentID : Nat) (date : Int) : Bool :=
  db.sessions.any (fun s => s.sessionDate == date && s.recurringParentID == some parentID)

/-- The `for i := 0; i < occurrences - 1; i++` loop of
`generateRecurringSessions`: at each step, create the child for `nextDate`
unless one already exists, then advance by 7 days. -/
def genLoop (parent : Session) : Nat → Int → Nat → DB → DB
  | 0, _, _, db => db
  | Nat.succ k, nextDate, freshID, db =>
    let db2 :=
      if childExists db parent.id nextDate then db
      else { db with sessions := db.sessions ++ [childSession parent freshID nextDate] }
    genLoop parent k (nextDate + 7) (freshID + 1) db2

/-- `SessionService.generateRecurringSessions`: a silent no-op when the parent
has no `recurring_day_of_week`; otherwise runs the weekly loop starting one
week after the parent's date, for `occurrences - 1` steps. -/
def generateRecurringSessions (db : DB) (parent : Session) (occurrences : Int)
    (freshID : Nat) : DB :=
  match parent.recurringDayOfWeek with
  | none => db
  | some _ => genLoop parent (occurrences - 1).toNat (parent.sessionDate + 7) freshID db

/-- The occurrence-count defaulting in `CreateSession`: start from the default
4 and override only when a strictly positive count was supplied. -/
def effectiveOccurrences (o : Option Int) : Int :=
  match o with
  | some n => if n > 0 then n else 4
  | none => 4

/-- `SessionService.CreateSession`: validate courts, build the session (with
derived capacity and computed deadline), persist it, then generate recurring
instances when requested. -/
def createSession (db : DB) (input : CreateSessionInput) (freshID : Nat) :
    Except String (DB × Session) :=
  if input.courts < 1 || input.courts > 3 then
    .error "courts must be between 1 and 3"
  else
    let session : Session :=
      { id := freshID
        title := input.title
        description := input.description
        sessionDate := input.sessionDate
        startTime := input.startTime
        endTime := input.endTime
        courts := input.courts
        maxPlayers := MaxPlayersForCourts input.courts
        rsvpDeadline := CalculateRSVPDeadline input.sessionDate
        isRecurring := input.isRecurring
        recurringDayOfWeek := input.recurringDayOfWeek
        recurringParentID := none
        status := SessionStatus.opened
        createdBy := input.createdBy }
    let db1 : DB := { db with sessions := db.sessions ++ [session] }
    if input.isRecurring && input.recurringDayOfWeek.isSome then
      .ok (generateRecurringSessions db1 session
             (effectiveOccurrences input.occurrences) (freshID + 1), session)
    else
      .ok (db1, session)

structure UpdateSessionInput where
  title : Option String
  description : Option String
  sessionDate : Option Int
  startTime : Option TimeOfDay
  endTime : Option TimeOfDay
  courts : Option Int
  status : Option SessionStatus
deriving DecidableEq, Repr

/-- `SessionService.UpdateSession`: load the session, apply the provided
fields (recomputing the deadline with a new date and the capacity with a new
court count), rejecting an out-of-range court count before anything is saved. -/
def updateSession (db : DB) (sid : Nat) (input : UpdateSessionInput) :
    Except String (DB × Session) :=
  match findSession db sid with
  | none => .error "session not found"
  | some s0 =>
    let s1 := match input.title with
      | some t => { s0 with title := t }
      | none => s0
    let s2 := match input.description with
      | some d => { s1 with description := d }
      | none => s1
    let s3 := match input.sessionDate with
      | some d => { s2 with sessionDate := d, rsvpDeadline := CalculateRSVPDeadline d }
      | none => s2
    let s4 := match input.startTime with
      | some t => { s3 with startTime := t }
      | none => s3
    let s5 := match input.endTime with
      | some t => { s4 with endTime := t }
      | none => s4
    match input.courts with
    | some c =>
      if c < 1 || c > 3 then .error "courts must be between 1 and 3"
      else
        let s6 := { s5 with courts := c, maxPlayers := MaxPlayersForCourts c }
        let s7 := match input.status with
          | some st => { s6 with status := st }
          | none => s6
        .ok ({ db with
                sessions := db.sessions.map (fun x => if x.id == sid then s7 else x) },
             s7)
    | none =>
      let s7 := match input.status with
        | some st => { s5 with status := st }
        | none => s5
      .ok ({ db with
              sessions := db.sessions.map (fun x => if x.id == sid then s7 else x) },
           s7)

/-- The per-parent iteration of `RefreshRecurringSessions`. -/
def refreshLoop : List Session → Nat → DB → DB
  | [], _, db => db
  | p :: ps, freshID, db =>
    refreshLoop ps (freshID + 4) (generateRecurringSessions db p 4 freshID)

/-- `SessionService.RefreshRecurringSessions`: re-run generation with the
default horizon of 4 for every open recurring parent. -/
def refreshRecurringSessions (db : DB) (freshID : Nat) : DB :=
  refreshLoop
    (db.sessions.filter
      (fun s => s.isRecurring && s.status == SessionStatus.opened))
    freshID db

/-! ### Scheduler (internal/services/scheduler_service.go) -/

/-- `SchedulerService.parseSessionDateTime`: the session's civil date combined
with its parsed HH:MM start time in the Sydney location. -/
def sessionStartInstant (s : Session) : Instant :=
  s.sessionDate * secPerDay + s.startTime.hour * 3600 + s.startTime.minute * 60

/-- `SchedulerService.sendSessionRemindersForWindow`: candidate sessions are
those whose stored date equals the civil date of `windowStart = now + lead`
and whose status is open; among them, the ones whose start instant is strictly
after `windowStart` and strictly before `windowEnd = windowStart + 1h` trigger
a reminder to every user with an `in` RSVP.  The result is the list of
`(session id, user id)` reminder notifications of one tick for one lead time. -/
def sessionRemindersForWindow (db : DB) (now : Instant) (hoursAhead : Int) :
    List (Nat × Nat) :=
  let windowStart := now + hoursAhead * 3600
  let windowEnd := windowStart + 3600
  (db.sessions.filter
      (fun s => s.sessionDate == dayOf windowStart
        && s.status == SessionStatus.opened)).flatMap
    (fun session =>
      if windowStart < sessionStartInstant session
          ∧ sessionStartInstant session < windowEnd then
        (db.rsvps.filter
            (fun r => r.sessionID == session.id
              && r.status == RSVPStatus.statusIn)).map
          (fun r => (session.id, r.userID))
      else [])

/-- Comparison by first-write timestamp, the waitlist's FCFS order
(`ORDER BY rsvp_timestamp ASC`). -/
def tsLE (a b : RSVP) : Prop := a.rsvpTimestamp ≤ b.rsvpTimestamp

instance : DecidableRel tsLE :=
  fun a b => Int.decLe a.rsvpTimestamp b.rsvpTimestamp

instance : IsTotal RSVP tsLE :=
  ⟨fun a b => Int.le_total a.rsvpTimestamp b.rsvpTimestamp⟩

instance : IsTrans RSVP tsLE :=
  ⟨fun _ _ _ hab hbc => le_trans hab hbc⟩

/-- The `maybe` rows of one session, as returned by the waitlist query before
its ordering and limit are applied. -/
def maybeRSVPsOf (db : DB) (sid : Nat) : List RSVP :=
  db.rsvps.filter
    (fun r => r.sessionID == sid && r.status == RSVPStatus.statusMaybe)

/-- `SchedulerService.SendWaitlistUpdate`: count confirmed players; if the
session is at or over capacity do nothing, otherwise notify the earliest (by
`rsvp_timestamp`) `maybe` responders, at most `spotsAvailable` of them.  The
result is the list of notified user ids in notification order. -/
def sendWaitlistUpdate (db : DB) (session : Session) : List Nat :=
  let confirmedCount := countRSVPs db session.id RSVPStatus.statusIn
  if session.maxPlayers ≤ confirmedCount then []
  else
    let spotsAvailable := session.maxPlayers - confirmedCount
    let maybeRSVPs :=
      (List.insertionSort tsLE (maybeRSVPsOf db session.id)).take
        spotsAvailable.toNat
    maybeRSVPs.map (fun r => r.userID)

/-! ### Concrete example states used by witnesses and counterexamples -/

/-- An open two-court session whose RSVP deadline is instant 100. -/
def exSession : Session :=
  { id := 1, title := "Club Night", description := "", sessionDate := 1001
    startTime := ⟨18, 0⟩, endTime := ⟨20, 0⟩, courts := 2, maxPlayers := 10
    rsvpDeadline := 100, isRecurring := false, recurringDayOfWeek := none
    recurringParentID := none, status := SessionStatus.opened, createdBy := 1 }

/-- An existing confirmed RSVP of user 1 on `exSession`, created before the
deadline. -/
def exInRSVP : RSVP :=
  { id := 1, sessionID := 1, userID := 1, status := RSVPStatus.statusIn
    rsvpTimestamp := 50, isLateRSVP := false, addedByAdmin := false
    updatedAt := 50 }

def exDB : DB := { sessions := [exSession], rsvps := [exInRSVP] }

/-- A recurring parent (weekly on Monday) used to exercise generation. -/
def exParent : Session :=
  { exSession with id := 2, isRecurring := true, recurringDayOfWeek := some 1 }

/-- Creation input with a non-positive occurrence count. -/
def exCreateInput : CreateSessionInput :=
  { title := "Recurring Night", description := "", sessionDate := 1000
    startTime := ⟨18, 0⟩, endTime := ⟨20, 0⟩, courts := 2, isRecurring := true
    recurringDayOfWeek := some 1, occurrences := some 0, createdBy := 1 }

/-- Creation input with an out-of-range court count. -/
def exBadCourtsInput : CreateSessionInput :=
  { exCreateInput with
      courts := 5, isRecurring := false, recurringDayOfWeek := none
      occurrences := none }

/-- Update input that only touches the court count, with an invalid value. -/
def exBadCourtsUpdate : UpdateSessionInput :=
  { title := none, description := none, sessionDate := none, startTime := none
    endTime := none, courts := some 0, status := none }

/-- A confirmed RSVP of user `i` on session 1 with timestamp `i`. -/
def exInRSVPAt (i : Nat) : RSVP :=
  { id := i, sessionID := 1, userID := i, status := RSVPStatus.statusIn
    rsvpTimestamp := (i : Int), isLateRSVP := false, addedByAdmin := false
    updatedAt := (i : Int) }

/-- A `maybe` RSVP of user 20 on session 1, the earliest-waiting entry. -/
def exMaybeRSVP : RSVP :=
  { id := 20, sessionID := 1, userID := 20, status := RSVPStatus.statusMaybe
    rsvpTimestamp := 5, isLateRSVP := false, addedByAdmin := false
    updatedAt := 5 }

/-- Nine confirmed players plus one `maybe` on the ten-player `exSession`. -/
def exWaitlistDB : DB :=
  { sessions := [exSession]
    rsvps := (List.range 9).map (fun i => exInRSVPAt (i + 1)) ++ [exMaybeRSVP] }

/-- An open session starting 18:00 on day 1001, with scheduler ticks placed
around its start instant. -/
def exReminderSession : Session := exSession

/-- Tick instant exactly 24 hours before `exReminderSession`'s start. -/
def exTickAtBoundary : Instant := 1000 * secPerDay + 18 * 3600

/-- Tick instant one minute earlier, so the start is strictly inside the
24-hour window. -/
def exTickInside : Instant := exTickAtBoundary - 60

/-- An open session starting 00:15 on day 1002. -/
def exMidnightSession : Session :=
  { exSession with sessionDate := 1002, startTime := ⟨0, 15⟩ }

/-- Tick for which `now + 24h` is 23:30 of day 1001, so the 24-hour window
spans midnight and contains `exMidnightSession`'s start. -/
def exTickMidnight : Instant := 1000 * secPerDay + 84600

def exMidnightDB : DB := { sessions := [exMidnightSession], rsvps := [exInRSVP] }

/-! ### Helper lemmas on the recurrence generator -/

theorem genLoop_sessions_prefix (parent : Session) (k : Nat) :
    ∀ d f db, ∃ t, (genLoop parent k d f db).sessions = db.sessions ++ t := by
  induction k with
  | zero => intro d f db; exact ⟨[], by simp [genLoop]⟩
  | succ k ih =>
    intro d f db
    simp only [genLoop]
    by_cases h : childExists db parent.id d = true
    · simpa [h] using ih (d + 7) (f + 1) db
    · obtain ⟨t, ht⟩ := ih (d + 7) (f + 1)
        { db with sessions := db.sessions ++ [childSession parent f d] }
      rw [if_neg h]
      exact ⟨childSession parent f d :: t, by rw [ht]; simp⟩

theorem childExists_genLoop (parent : Session) (k : Nat) (d : Int) (f : Nat)
    (db : DB) (p : Nat) (x : Int) (h : childExists db p x = true) :
    childExists (genLoop parent k d f db) p x = true := by
  obtain ⟨t, ht⟩ := genLoop_sessions_prefix parent k d f db
  simp only [childExists] at h ⊢
  rw [ht, List.any_append, h, Bool.true_or]

theorem genLoop_creates (parent : Session) (k : Nat) :
    ∀ d (f : Nat) db (i : Nat), i < k →
      childExists (genLoop parent k d f db) parent.id (d + 7 * (i : Int)) = true := by
  induction k with
  | zero => intro d f db i hi; omega
  | succ k ih =>
    intro d f db i hi
    simp only [genLoop]
    have hbase :
        childExists
          (if childExists db parent.id d then db
           else { db with sessions := db.sessions ++ [childSession parent f d] })
          parent.id d = true := by
      by_cases h : childExists db parent.id d
      · simp only [h, if_true]
      · simp only [h, if_false]
        simp [childExists, childSession, List.any_append]
    cases i with
    | zero =>
      simpa using childExists_genLoop parent k (d + 7) (f + 1) _ parent.id d hbase
    | succ j =>
      have harith : d + 7 * ((j : Int) + 1) = (d + 7) + 7 * (j : Int) := by ring
      have := ih (d + 7) (f + 1)
        (if childExists db parent.id d then db
         else { db with sessions := db.sessions ++ [childSession parent f d] })
        j (by omega)
      simpa [harith] using this

theorem genLoop_noop (parent : Session) (k : Nat) :
    ∀ d (f : Nat) db,
      (∀ i : Nat, i < k → childExists db parent.id (d + 7 * (i : Int)) = true) →
      genLoop parent k d f db = db := by
  induction k with
  | zero => intro d f db _; rfl
  | succ k ih =>
    intro d f db h
    have h0 : childExists db parent.id d = true := by simpa using h 0 (by omega)
    simp only [genLoop, h0, if_true]
    apply ih
    intro i hi
    have harith : (d + 7) + 7 * (i : Int) = d + 7 * (((i : Int)) + 1) := by ring
    rw [harith]
    simpa using h (i + 1) (by omega)

theorem genLoop_mem (parent : Session) (k : Nat) :
    ∀ d (f : Nat) db s, s ∈ (genLoop parent k d f db).sessions →
      s ∈ db.sessions
        ∨ (s.isRecurring = false ∧ s.recurringParentID = some parent.id) := by
  induction k with
  | zero => intro d f db s hs; exact Or.inl hs
  | succ k ih =>
    intro d f db s hs
    simp only [genLoop] at hs
    rcases ih (d + 7) (f + 1) _ s hs with hmem | hchild
    · by_cases h : childExists db parent.id d
      · rw [if_pos h] at hmem
        exact Or.inl hmem
      · rw [if_neg h] at hmem
        rcases List.mem_append.mp hmem with h1 | h2
        · exact Or.inl h1
        · refine Or.inr ?_
          have : s = childSession parent f d := by simpa using h2
          subst this
          exact ⟨rfl, rfl⟩
    · exact Or.inr hchild

theorem generateRecurringSessions_mem (db : DB) (parent : Session)
    (occurrences : Int) (freshID : Nat) (s : Session)
    (h : s ∈ (generateRecurringSessions db parent occurrences freshID).sessions) :
    s ∈ db.sessions
      ∨ (s.isRecurring = false ∧ s.recurringParentID = some parent.id) := by
  unfold generateRecurringSessions at h
  cases hdow : parent.recurringDayOfWeek with
  | none => rw [hdow] at h; exact Or.inl h
  | some w =>
    rw [hdow] at h
    exact genLoop_mem parent _ _ _ db s h

theorem refreshLoop_mem :
    ∀ (ps : List Session) (f : Nat) (db : DB) (s : Session),
      s ∈ (refreshLoop ps f db).sessions →
      s ∈ db.sessions
        ∨ ∃ p ∈ ps, s.isRecurring = false ∧ s.recurringParentID = some p.id := by
  intro ps
  induction ps with
  | nil => intro f db s hs; exact Or.inl hs
  | cons p ps ih =>
    intro f db s hs
    simp only [refreshLoop] at hs
    rcases ih (f + 4) (generateRecurringSessions db p 4 f) s hs with hmem | ⟨q, hq, hrec⟩
    · rcases generateRecurringSessions_mem db p 4 f s hmem with h1 | h2
      · exact Or.inl h1
      · exact Or.inr ⟨p, List.mem_cons_self p ps, h2⟩
    · exact Or.inr ⟨q, List.mem_cons_of_mem p hq, hrec⟩

/-! ### Claim theorems -/

/-- Claim C3 (confirmed): recurrence generation is idempotent — invoking
`generateRecurringSessions` a second time with the same parent and the same
occurrence count leaves the database exactly as the first invocation left it,
so no already-materialized date is ever duplicated. -/
theorem claimC3 (db : DB) (parent : Session) (occurrences : Int) (f1 f2 : Nat) :
    generateRecurringSessions (generateRecurringSessions db parent occurrences f1)
        parent occurrences f2
      = generateRecurringSessions db parent occurrences f1 := by
  unfold generateRecurringSessions
  cases hdow : parent.recurringDayOfWeek with
  | none => rfl
  | some w =>
    apply genLoop_noop
    intro i hi
    exact genLoop_creates parent _ (parent.sessionDate + 7) f1 db i hi

/-- Claim C5 (confirmed): the computed RSVP deadline of a session dated `D` is
the instant of civil day `D - 3` at 23:59:59 club-local, for every date; in
particular a session dated Sunday 2025-06-15 gets the deadline Thursday
2025-06-12 23:59:59.  (On the Sydney civil timeline this holds for every date;
DST transitions happen at 02:00/03:00, so 23:59:59 always exists there.) -/
theorem claimC5 :
    (∀ D : Int, dayOf (CalculateRSVPDeadline D) = D - 3
      ∧ secondOfDay (CalculateRSVPDeadline D) = 23 * 3600 + 59 * 60 + 59)
    ∧ CalculateRSVPDeadline (daysFromCivil 2025 6 15)
        = daysFromCivil 2025 6 12 * secPerDay + (23 * 3600 + 59 * 60 + 59)
    ∧ weekdayOf (daysFromCivil 2025 6 15) = 0
    ∧ weekdayOf (daysFromCivil 2025 6 12) = 4 := by
  refine ⟨fun D => ⟨?_, ?_⟩, by decide, by decide, by decide⟩
  · show ((D - 3) * 86400 + (23 * 3600 + 59 * 60 + 59)) / 86400 = D - 3
    omega
  · show ((D - 3) * 86400 + (23 * 3600 + 59 * 60 + 59)) % 86400
        = 23 * 3600 + 59 * 60 + 59
    omega

/-- Claim C10 (confirmed): every session added by recurrence generation has
`is_recurring = false` and back-references the generating parent; and every
session added by the maintenance sweep descends from a parent that is in the
pre-sweep database with `is_recurring = true` and status open.  Children are
therefore never themselves used as recurrence parents and generation never
cascades. -/
theorem claimC10 :
    (∀ (db : DB) (parent : Session) (occurrences : Int) (freshID : Nat)
        (s : Session),
        s ∈ (generateRecurringSessions db parent occurrences freshID).sessions →
        s ∈ db.sessions
          ∨ (s.isRecurring = false ∧ s.recurringParentID = some parent.id))
    ∧ (∀ (db : DB) (freshID : Nat) (s : Session),
        s ∈ (refreshRecurringSessions db freshID).sessions →
        s ∈ db.sessions
          ∨ ∃ p ∈ db.sessions, p.isRecurring = true
              ∧ p.status = SessionStatus.opened
              ∧ s.isRecurring = false ∧ s.recurringParentID = some p.id) := by
  constructor
  · exact generateRecurringSessions_mem
  · intro db freshID s hs
    unfold refreshRecurringSessions at hs
    rcases refreshLoop_mem _ freshID db s hs with hmem | ⟨p, hp, hrec⟩
    · exact Or.inl hmem
    · rcases List.mem_filter.mp hp with ⟨hpdb, hpcond⟩
      have hpcond2 : p.isRecurring = true ∧ p.status = SessionStatus.opened := by
        simpa using hpcond
      exact Or.inr ⟨p, hpdb, hpcond2.1, hpcond2.2, hrec.1, hrec.2⟩

/-- Claim C10, witness: the single child generated from `exParent` over an
empty database is itself non-recurring and back-references `exParent`. -/
theorem claimC10_witness :
    childSession exParent 5 (exParent.sessionDate + 7)
        ∈ (DB.mk [] []).sessions
      ∨ ((childSession exParent 5 (exParent.sessionDate + 7)).isRecurring = false
          ∧ (childSession exParent 5 (exParent.sessionDate + 7)).recurringParentID
              = some exParent.id) :=
  claimC10.1 (DB.mk [] []) exParent 2 5
    (childSession exParent 5 (exParent.sessionDate + 7)) (by decide)

/-- Claim C1 (corrected): for an existing `in` RSVP on an open session, a
non-admin upsert after the deadline with a status other than `in` fails — but
with the `deadlinePassed` error, because the non-admin deadline check precedes
the record lookup, making the dedicated `lockedIn` error unreachable in
upsert; an admin upsert with the same arguments succeeds and updates the
status. -/
theorem claimC1 (db : DB) (now : Instant) (newID sid uid : Nat)
    (newStatus : RSVPStatus) (s : Session) (r : RSVP)
    (hs : findSession db sid = some s) (hopen : s.status = SessionStatus.opened)
    (hr : findRSVP db sid uid = some r) (hin : r.status = RSVPStatus.statusIn)
    (hlate : s.rsvpDeadline < now) (hst : newStatus ≠ RSVPStatus.statusIn) :
    createOrUpdateRSVP db now newID sid uid newStatus false
        = .error RSVPError.deadlinePassed
    ∧ createOrUpdateRSVP db now newID sid uid newStatus true
        = .ok ({ db with rsvps := db.rsvps.map (fun x =>
                  if x.id == r.id then
                    { r with status := newStatus, updatedAt := now
                             addedByAdmin := true }
                  else x) },
               { r with status := newStatus, updatedAt := now
                        addedByAdmin := true }) := by
  constructor
  · simp only [createOrUpdateRSVP, hs]
    rw [if_neg (by simp [hopen])]
    simp [hlate]
  · simp only [createOrUpdateRSVP, hs, hr]
    rw [if_neg (by simp [hopen])]
    simp

/-- Claim C1, counterexample: with `exDB` (open session, deadline 100, user 1
already `in`) at `now = 200`, the non-admin downgrade to `out` is rejected
with `deadlinePassed`, not with `lockedIn` as the claim states. -/
theorem claimC1_counterexample :
    createOrUpdateRSVP exDB 200 9 1 1 RSVPStatus.statusOut false
        = .error RSVPError.deadlinePassed
    ∧ RSVPError.deadlinePassed ≠ RSVPError.lockedIn :=
  ⟨rfl, by decide⟩

/-- Claim C1, witness: the corrected statement at `exDB`, `now = 200`: the
non-admin downgrade fails with `deadlinePassed` while the admin call succeeds
and sets the status to `out`. -/
theorem claimC1_witness :
    createOrUpdateRSVP exDB 200 9 1 1 RSVPStatus.statusOut false
        = .error RSVPError.deadlinePassed
    ∧ createOrUpdateRSVP exDB 200 9 1 1 RSVPStatus.statusOut true
        = .ok ({ exDB with rsvps := exDB.rsvps.map (fun x =>
                  if x.id == exInRSVP.id then
                    { exInRSVP with status := RSVPStatus.statusOut
                                    updatedAt := 200, addedByAdmin := true }
                  else x) },
               { exInRSVP with status := RSVPStatus.statusOut
                               updatedAt := 200, addedByAdmin := true }) :=
  claimC1 exDB 200 9 1 1 RSVPStatus.statusOut exSession exInRSVP rfl rfl rfl
    rfl (by decide) (by decide)

/-- Claim C9 (confirmed): a successful upsert on an existing RSVP record
rewrites only `status`, `updatedAt` and (for admin callers) `addedByAdmin`;
the `rsvpTimestamp` and `isLateRSVP` fixed at creation are preserved, the
record identity is unchanged, and no other row or session is touched. -/
theorem claimC9 (db : DB) (now : Instant) (newID sid uid : Nat)
    (newStatus : RSVPStatus) (byAdmin : Bool) (r : RSVP)
    (hr : findRSVP db sid uid = some r) (db2 : DB) (r2 : RSVP)
    (hok : createOrUpdateRSVP db now newID sid uid newStatus byAdmin
            = .ok (db2, r2)) :
    r2.rsvpTimestamp = r.rsvpTimestamp
    ∧ r2.isLateRSVP = r.isLateRSVP
    ∧ r2.id = r.id ∧ r2.sessionID = r.sessionID ∧ r2.userID = r.userID
    ∧ r2.status = newStatus ∧ r2.updatedAt = now
    ∧ r2.addedByAdmin = (byAdmin || r.addedByAdmin)
    ∧ db2.sessions = db.sessions
    ∧ db2.rsvps = db.rsvps.map (fun x => if x.id == r.id then r2 else x) := by
  simp only [createOrUpdateRSVP] at hok
  split at hok
  · exact Except.noConfusion hok
  next session hfs =>
    split at hok
    · exact Except.noConfusion hok
    · split at hok
      · exact Except.noConfusion hok
      · split at hok
        next heq => rw [hr] at heq; exact Option.noConfusion heq
        next r0 heq =>
          rw [hr] at heq
          obtain rfl : r0 = r := (Option.some.injEq _ _).mp heq.symm
          split at hok
          · exact Except.noConfusion hok
          · simp only [Except.ok.injEq, Prod.mk.injEq] at hok
            obtain ⟨hdb, hr2⟩ := hok
            subst hdb
            subst hr2
            refine ⟨rfl, rfl, rfl, rfl, rfl, rfl, rfl, ?_, rfl, rfl⟩
            cases byAdmin <;> simp

/-- Claim C9, witness: a non-admin status change on `exDB` before the deadline
(at `now = 90`) succeeds and preserves the original timestamp and lateness. -/
theorem claimC9_witness :
    (let r2 : RSVP :=
      { exInRSVP with status := RSVPStatus.statusMaybe, updatedAt := 90
                      addedByAdmin := false || exInRSVP.addedByAdmin }
     r2.rsvpTimestamp = exInRSVP.rsvpTimestamp
     ∧ r2.isLateRSVP = exInRSVP.isLateRSVP
     ∧ r2.id = exInRSVP.id ∧ r2.sessionID = exInRSVP.sessionID
     ∧ r2.userID = exInRSVP.userID
     ∧ r2.status = RSVPStatus.statusMaybe ∧ r2.updatedAt = 90
     ∧ r2.addedByAdmin = (false || exInRSVP.addedByAdmin)
     ∧ ({ exDB with rsvps := exDB.rsvps.map (fun x =>
            if x.id == exInRSVP.id then r2 else x) } : DB).sessions
          = exDB.sessions
     ∧ ({ exDB with rsvps := exDB.rsvps.map (fun x =>
            if x.id == exInRSVP.id then r2 else x) } : DB).rsvps
          = exDB.rsvps.map (fun x => if x.id == exInRSVP.id then r2 else x)) :=
  claimC9 exDB 90 9 1 1 RSVPStatus.statusMaybe false exInRSVP rfl _ _ rfl

/-- Claim C8 (confirmed): the RSVP summary of a session is computed fresh from
the RSVP rows — the three status counts are the current row counts and
`spotsLeft` is `max 0 (maxPlayers - countIn)`; the service performs reads
only. -/
theorem claimC8 (db : DB) (sid : Nat) (s : Session)
    (h : findSession db sid = some s) :
    getRSVPSummary db sid = some
      { totalIn := countRSVPs db sid RSVPStatus.statusIn
        totalOut := countRSVPs db sid RSVPStatus.statusOut
        totalMaybe := countRSVPs db sid RSVPStatus.statusMaybe
        maxPlayers := s.maxPlayers
        spotsLeft := max 0 (s.maxPlayers - countRSVPs db sid RSVPStatus.statusIn) } := by
  simp only [getRSVPSummary, h]
  have hmax : (if s.maxPlayers - countRSVPs db sid RSVPStatus.statusIn < 0 then 0
        else s.maxPlayers - countRSVPs db sid RSVPStatus.statusIn)
      = max 0 (s.maxPlayers - countRSVPs db sid RSVPStatus.statusIn) := by
    omega
  rw [hmax]

/-- Claim C8, witness: on `exDB` (one `in` RSVP, capacity 10) the summary is
1/0/0 with 9 spots left, matching the fresh-count formulation. -/
theorem claimC8_witness :
    getRSVPSummary exDB 1 = some
      { totalIn := countRSVPs exDB 1 RSVPStatus.statusIn
        totalOut := countRSVPs exDB 1 RSVPStatus.statusOut
        totalMaybe := countRSVPs exDB 1 RSVPStatus.statusMaybe
        maxPlayers := exSession.maxPlayers
        spotsLeft := max 0 (exSession.maxPlayers
          - countRSVPs exDB 1 RSVPStatus.statusIn) }
    ∧ getRSVPSummary exDB 1 = some
        { totalIn := 1, totalOut := 0, totalMaybe := 0, maxPlayers := 10
          spotsLeft := 9 } :=
  ⟨claimC8 exDB 1 exSession rfl, by decide⟩

/-- Claim C4 (corrected): a non-positive or absent occurrence count on session
creation is not "no generation" — it falls back to the default of 4 total
occurrences (so up to 3 children are materialized); only the generator invoked
directly with `occurrences ≤ 1` creates no children. -/
theorem claimC4 (db : DB) (input : CreateSessionInput) (freshID : Nat)
    (n occurrences : Int) (parent : Session) :
    (input.occurrences = some n → n ≤ 0 →
      createSession db input freshID
        = createSession db { input with occurrences := some 4 } freshID)
    ∧ (input.occurrences = none →
      createSession db input freshID
        = createSession db { input with occurrences := some 4 } freshID)
    ∧ (occurrences ≤ 1 →
      generateRecurringSessions db parent occurrences freshID = db) := by
  refine ⟨?_, ?_, ?_⟩
  · intro hsome hn
    have e : effectiveOccurrences input.occurrences
        = effectiveOccurrences (some 4) := by
      rw [hsome]
      simp only [effectiveOccurrences]
      rw [if_neg (by omega), if_pos (by omega)]
    simp only [createSession, e]
  · intro hnone
    have e : effectiveOccurrences input.occurrences
        = effectiveOccurrences (some 4) := by
      rw [hnone]
      simp only [effectiveOccurrences]
      rw [if_pos (by omega)]
    simp only [createSession, e]
  · intro hocc
    unfold generateRecurringSessions
    cases parent.recurringDayOfWeek with
    | none => rfl
    | some w =>
      rw [Int.toNat_of_nonpos (by omega)]
      rfl

/-- Claim C4, counterexample: creating a recurring session with
`occurrences = 0` over an empty database materializes 3 children (4 sessions
in total), not 0 as the claim states. -/
theorem claimC4_counterexample :
    (createSession (DB.mk [] []) exCreateInput 1).toOption.map
        (fun p => p.1.sessions.length) = some 4
    ∧ (4 : Nat) ≠ 1 :=
  ⟨rfl, by decide⟩

/-- Claim C4, witness: the corrected statement at `exCreateInput`
(`occurrences = some 0`): creation behaves exactly as with the default count
of 4, and the bare generator with occurrence count 0 creates nothing. -/
theorem claimC4_witness :
    createSession (DB.mk [] []) exCreateInput 1
        = createSession (DB.mk [] [])
            { exCreateInput with occurrences := some 4 } 1
    ∧ generateRecurringSessions (DB.mk [] []) exParent 0 1 = DB.mk [] [] :=
  ⟨(claimC4 (DB.mk [] []) exCreateInput 1 0 0 exParent).1 rfl (by decide),
   (claimC4 (DB.mk [] []) exCreateInput 1 0 0 exParent).2.2 (by decide)⟩

/-- Claim C6 (confirmed): the derived capacity is 6/10/16 players for 1/2/3
courts, and both session creation and session update reject a court count
outside `[1, 3]` with the validation error, before any state is written (the
error paths return before the create/save). -/
theorem claimC6 :
    (MaxPlayersForCourts 1 = 6 ∧ MaxPlayersForCourts 2 = 10
      ∧ MaxPlayersForCourts 3 = 16)
    ∧ (∀ (db : DB) (input : CreateSessionInput) (freshID : Nat),
        input.courts < 1 ∨ 3 < input.courts →
        createSession db input freshID = .error "courts must be between 1 and 3")
    ∧ (∀ (db : DB) (sid : Nat) (input : UpdateSessionInput) (s : Session)
        (c : Int), findSession db sid = some s → input.courts = some c →
        c < 1 ∨ 3 < c →
        updateSession db sid input = .error "courts must be between 1 and 3") := by
  refine ⟨⟨by decide, by decide, by decide⟩, ?_, ?_⟩
  · intro db input freshID hc
    simp only [createSession]
    rw [if_pos]
    rcases hc with h | h
    · simp [h]
    · have : input.courts > 3 := h
      simp [this]
  · intro db sid input s c hs hc hbad
    simp only [updateSession, hs, hc]
    rw [if_pos]
    rcases hbad with h | h
    · simp [h]
    · have : c > 3 := h
      simp [this]

/-- Claim C6, witness: court counts 1/2/3 map to 6/10/16, creating with 5
courts is rejected, and updating `exDB`'s session to 0 courts is rejected. -/
theorem claimC6_witness :
    (MaxPlayersForCourts 1 = 6 ∧ MaxPlayersForCourts 2 = 10
      ∧ MaxPlayersForCourts 3 = 16)
    ∧ createSession exDB exBadCourtsInput 9
        = .error "courts must be between 1 and 3"
    ∧ updateSession exDB 1 exBadCourtsUpdate
        = .error "courts must be between 1 and 3" :=
  ⟨claimC6.1,
   claimC6.2.1 exDB exBadCourtsInput 9 (by decide),
   claimC6.2.2 exDB 1 exBadCourtsUpdate exSession 0 rfl rfl (by decide)⟩

/-- Claim C7 (confirmed): when the confirmed count is strictly below capacity,
the waitlist notification goes to exactly `min(spotsAvailable, #maybe)` users:
the `maybe` responders with the smallest `rsvp_timestamp` values (every
notified timestamp is at most every non-notified `maybe` timestamp), in
ascending timestamp order; at or over capacity nobody is notified. -/
theorem claimC7 (db : DB) (session : Session) :
    (countRSVPs db session.id RSVPStatus.statusIn < session.maxPlayers →
      sendWaitlistUpdate db session
          = ((List.insertionSort tsLE (maybeRSVPsOf db session.id)).take
              (session.maxPlayers
                - countRSVPs db session.id RSVPStatus.statusIn).toNat).map
              (fun r => r.userID)
      ∧ (sendWaitlistUpdate db session).length
          = min (session.maxPlayers
                - countRSVPs db session.id RSVPStatus.statusIn).toNat
              (maybeRSVPsOf db session.id).length
      ∧ List.Sorted tsLE
          ((List.insertionSort tsLE (maybeRSVPsOf db session.id)).take
            (session.maxPlayers
              - countRSVPs db session.id RSVPStatus.statusIn).toNat)
      ∧ (∀ c ∈ (List.insertionSort tsLE (maybeRSVPsOf db session.id)).take
            (session.maxPlayers
              - countRSVPs db session.id RSVPStatus.statusIn).toNat,
          ∀ x ∈ (List.insertionSort tsLE (maybeRSVPsOf db session.id)).drop
            (session.maxPlayers
              - countRSVPs db session.id RSVPStatus.statusIn).toNat,
          c.rsvpTimestamp ≤ x.rsvpTimestamp)
      ∧ (List.insertionSort tsLE (maybeRSVPsOf db session.id)).Perm
          (maybeRSVPsOf db session.id))
    ∧ (session.maxPlayers ≤ countRSVPs db session.id RSVPStatus.statusIn →
      sendWaitlistUpdate db session = []) := by
  constructor
  · intro hlt
    have hnot : ¬ session.maxPlayers
        ≤ countRSVPs db session.id RSVPStatus.statusIn := by omega
    refine ⟨?_, ?_, ?_, ?_, List.perm_insertionSort tsLE _⟩
    · simp only [sendWaitlistUpdate, if_neg hnot]
    · simp only [sendWaitlistUpdate, if_neg hnot]
      rw [List.length_map, List.length_take,
        (List.perm_insertionSort tsLE _).length_eq]
    · exact List.Pairwise.sublist (List.take_sublist _ _)
        (List.sorted_insertionSort tsLE _)
    · have h := List.sorted_insertionSort tsLE (maybeRSVPsOf db session.id)
      rw [← List.take_append_drop
        (session.maxPlayers
          - countRSVPs db session.id RSVPStatus.statusIn).toNat
        (List.insertionSort tsLE (maybeRSVPsOf db session.id))] at h
      intro c hc x hx
      exact (List.pairwise_append.mp h).2.2 c hc x hx
  · intro hge
    simp only [sendWaitlistUpdate, if_pos hge]

/-- Claim C7, witness: the spec scenario — a two-court session (capacity 10)
with 9 confirmed players and one `maybe`: exactly the single earliest `maybe`
entry, user 20, is notified. -/
theorem claimC7_witness :
    sendWaitlistUpdate exWaitlistDB exSession
        = ((List.insertionSort tsLE (maybeRSVPsOf exWaitlistDB exSession.id)).take
            (exSession.maxPlayers
              - countRSVPs exWaitlistDB exSession.id RSVPStatus.statusIn).toNat).map
            (fun r => r.userID)
    ∧ sendWaitlistUpdate exWaitlistDB exSession = [20] :=
  ⟨((claimC7 exWaitlistDB exSession).1 (by decide)).1, by decide⟩

/-- Claim C2 (corrected): on a tick at `now` with lead time `L` hours, a
reminder fires for an open session (to each of its `in` RSVPs) exactly when
the session's stored civil date equals the civil date of `now + L` and its
start instant lies strictly inside the open interval `(now + L, now + L + 1h)`.
The Go code tests `After(windowStart)`, so a session starting exactly at
`now + L` is excluded (the claim includes it), and the date-equality
pre-filter also excludes matches beyond midnight of the window-start day; a
session starting at `now + L - 1min` is excluded, as the claim says. -/
theorem claimC2 (db : DB) (now : Instant) (lead : Int) (s : Session) (r : RSVP)
    (hs : s ∈ db.sessions) (hr : r ∈ db.rsvps) (hrsid : r.sessionID = s.id)
    (hin : r.status = RSVPStatus.statusIn)
    (hopen : s.status = SessionStatus.opened)
    (huniq : ∀ s2 ∈ db.sessions, s2.id = s.id → s2 = s) :
    (s.id, r.userID) ∈ sessionRemindersForWindow db now lead ↔
      (s.sessionDate = dayOf (now + lead * 3600)
        ∧ now + lead * 3600 < sessionStartInstant s
        ∧ sessionStartInstant s < now + lead * 3600 + 3600) := by
  simp only [sessionRemindersForWindow]
  constructor
  · intro hmem
    rcases List.mem_flatMap.mp hmem with ⟨s2, hs2, hpair⟩
    rcases List.mem_filter.mp hs2 with ⟨hs2db, hs2cond⟩
    by_cases hwin : now + lead * 3600 < sessionStartInstant s2
        ∧ sessionStartInstant s2 < now + lead * 3600 + 3600
    · rw [if_pos hwin] at hpair
      rcases List.mem_map.mp hpair with ⟨r2, hr2, hpr⟩
      have hid : s2.id = s.id := congrArg Prod.fst hpr
      have hss : s2 = s := huniq s2 hs2db hid
      subst hss
      simp only [Bool.and_eq_true, beq_iff_eq] at hs2cond
      exact ⟨hs2cond.1, hwin.1, hwin.2⟩
    · rw [if_neg hwin] at hpair
      exact absurd hpair (List.not_mem_nil _)
  · rintro ⟨hdate, h1, h2⟩
    refine List.mem_flatMap.mpr ⟨s, List.mem_filter.mpr ⟨hs, ?_⟩, ?_⟩
    · simp [hdate, hopen]
    · rw [if_pos ⟨h1, h2⟩]
      exact List.mem_map.mpr
        ⟨r, List.mem_filter.mpr ⟨hr, by simp [hrsid, hin]⟩, rfl⟩

/-- Claim C2, counterexample: `exSession` (open, user 1 `in`) starts exactly
at `now + 24h` for the tick `exTickAtBoundary` — the claimed half-open window
includes that instant, yet no reminder fires; `exMidnightSession` starts
strictly inside the window of `exTickMidnight`, which spans midnight, yet no
reminder fires because its date differs from the civil date of `now + 24h`.
One minute before the boundary (tick `exTickInside`) the reminder does
fire. -/
theorem claimC2_counterexample :
    sessionStartInstant exSession = exTickAtBoundary + 24 * 3600
    ∧ sessionRemindersForWindow exDB exTickAtBoundary 24 = []
    ∧ exTickMidnight + 24 * 3600 ≤ sessionStartInstant exMidnightSession
    ∧ sessionStartInstant exMidnightSession < exTickMidnight + 24 * 3600 + 3600
    ∧ sessionRemindersForWindow exMidnightDB exTickMidnight 24 = []
    ∧ sessionRemindersForWindow exDB exTickInside 24 = [(1, 1)] :=
  ⟨by decide, by decide, by decide, by decide, by decide, by decide⟩

/-- Claim C2, witness: the corrected criterion instantiated at the tick one
minute before the boundary: user 1 is reminded of `exSession` iff the date
matches and the start lies strictly inside the window — which it does. -/
theorem claimC2_witness :
    (exSession.id, exInRSVP.userID)
        ∈ sessionRemindersForWindow exDB exTickInside 24 ↔
      (exSession.sessionDate = dayOf (exTickInside + 24 * 3600)
        ∧ exTickInside + 24 * 3600 < sessionStartInstant exSession
        ∧ sessionStartInstant exSession < exTickInside + 24 * 3600 + 3600) :=
  claimC2 exDB exTickInside 24 exSession exInRSVP (by decide) (by decide) rfl
    rfl rfl (by decide)

end WeekdayMasters
